import Mathlib

/-!
Shallow embedding of `src/stripe_handler.rs` (Stripe webhook handler with
idempotency and signature verification) and proofs about the claims of the
specification.

Modelling conventions:
* Rust `&[u8]` byte strings are `List Nat` with entries `< 256`.
* Rust `&str` / `String` are Lean `String`; their UTF-8 bytes are produced by
  `strBytes` (a direct encoder of Unicode scalar values).
* `HashMap` values are modelled as functions `String → Option v`; insertion is
  pointwise update (one value per key, later insertions overwrite).
* The HMAC-SHA256 + hex pipeline of the `hmac`/`sha2`/`hex` crates is an
  external library, modelled as an abstract parameter
  `hmacHex : List Nat → List Nat → String` (key bytes, message bytes ↦ hex
  digest string).  `Utc::now()` and `Uuid::new_v4()` are modelled as explicit
  parameters.
* `i64` arithmetic on timestamps follows release-mode Rust: the freshness
  subtraction and `abs` wrap on overflow (`wrapI64`, `absI64`);
  `str::parse::<i64>` keeps the `i64` range check.
-/

namespace Stripe

/-! ### UTF-8 encoding (Rust `str::as_bytes`) -/

/-- UTF-8 encoding of one Unicode scalar value. -/
def utf8EncodeChar (c : Nat) : List Nat :=
  if c < 0x80 then [c]
  else if c < 0x800 then [0xC0 + c / 64, 0x80 + c % 64]
  else if c < 0x10000 then
    [0xE0 + c / 4096, 0x80 + (c / 64) % 64, 0x80 + c % 64]
  else
    [0xF0 + c / 262144, 0x80 + (c / 4096) % 64, 0x80 + (c / 64) % 64, 0x80 + c % 64]

/-- The UTF-8 bytes of a Lean/Rust string (`str::as_bytes`). -/
def strBytes (s : String) : List Nat :=
  (s.data.map Char.toNat).flatMap utf8EncodeChar

/-! ### `String::from_utf8_lossy` re-encoded at the byte level

`from_utf8_lossy` decodes UTF-8, replacing each maximal subpart of an invalid
sequence (per the Unicode substitution policy used by Rust's `core::str`
validator) with U+FFFD.  `utf8Lossy bs` is the UTF-8 byte string of
`String::from_utf8_lossy(bs)`: valid sequences are copied verbatim, invalid
subparts become the three replacement bytes `EF BF BD`. -/

/-- UTF-8 bytes of U+FFFD, the replacement character. -/
def replBytes : List Nat := [0xEF, 0xBF, 0xBD]

/-- Byte-level model of `String::from_utf8_lossy` followed by re-encoding. -/
def utf8Lossy : List Nat → List Nat
  | [] => []
  | b :: l =>
    if b ≤ 0x7F then b :: utf8Lossy l
    else if 0xC2 ≤ b ∧ b ≤ 0xDF then
      match l with
      | [] => replBytes
      | c1 :: l1 =>
        if 0x80 ≤ c1 ∧ c1 ≤ 0xBF then b :: c1 :: utf8Lossy l1
        else replBytes ++ utf8Lossy (c1 :: l1)
    else if 0xE0 ≤ b ∧ b ≤ 0xEF then
      match l with
      | [] => replBytes
      | c1 :: l1 =>
        if (b = 0xE0 ∧ 0xA0 ≤ c1 ∧ c1 ≤ 0xBF) ∨
           (b = 0xED ∧ 0x80 ≤ c1 ∧ c1 ≤ 0x9F) ∨
           (b ≠ 0xE0 ∧ b ≠ 0xED ∧ 0x80 ≤ c1 ∧ c1 ≤ 0xBF) then
          match l1 with
          | [] => replBytes
          | c2 :: l2 =>
            if 0x80 ≤ c2 ∧ c2 ≤ 0xBF then b :: c1 :: c2 :: utf8Lossy l2
            else replBytes ++ utf8Lossy (c2 :: l2)
        else replBytes ++ utf8Lossy (c1 :: l1)
    else if 0xF0 ≤ b ∧ b ≤ 0xF4 then
      match l with
      | [] => replBytes
      | c1 :: l1 =>
        if (b = 0xF0 ∧ 0x90 ≤ c1 ∧ c1 ≤ 0xBF) ∨
           (b = 0xF4 ∧ 0x80 ≤ c1 ∧ c1 ≤ 0x8F) ∨
           ((b = 0xF1 ∨ b = 0xF2 ∨ b = 0xF3) ∧ 0x80 ≤ c1 ∧ c1 ≤ 0xBF) then
          match l1 with
          | [] => replBytes
          | c2 :: l2 =>
            if 0x80 ≤ c2 ∧ c2 ≤ 0xBF then
              match l2 with
              | [] => replBytes
              | c3 :: l3 =>
                if 0x80 ≤ c3 ∧ c3 ≤ 0xBF then b :: c1 :: c2 :: c3 :: utf8Lossy l3
                else replBytes ++ utf8Lossy (c3 :: l3)
            else replBytes ++ utf8Lossy (c2 :: l2)
        else replBytes ++ utf8Lossy (c1 :: l1)
    else replBytes ++ utf8Lossy l

/-! ### Header parsing (Rust `str::split`, `str::splitn`, `HashMap` collect) -/

/-- Model of `str::split(sep)` on the character list of a string: splits at every
occurrence of `sep`, keeping empty pieces. -/
def splitOnChar (sep : Char) : List Char → List (List Char)
  | [] => [[]]
  | c :: l =>
    if c = sep then [] :: splitOnChar sep l
    else
      match splitOnChar sep l with
      | [] => [[c]]
      | p :: ps => (c :: p) :: ps

/-- Model of `part.splitn(2, '=')` followed by taking both pieces: `none` when the part
contains no `'='`, otherwise the text before the first `'='` and everything
after it. -/
def splitn2Eq (part : List Char) : Option (String × String) :=
  match part.findIdx? (· = '=') with
  | none => none
  | some i => some (⟨part.take i⟩, ⟨part.drop (i + 1)⟩)

/-- Parse `signature_header` into key/value pairs:
`header.split(',').filter_map(|part| splitn(2,'='))`. -/
def parseHeaderParts (header : String) : List (String × String) :=
  (splitOnChar ',' header.data).filterMap splitn2Eq

/-- Model of `HashMap::from_iter(pairs).get(k)`: the value of the last pair with key
`k` (later insertions overwrite earlier ones). -/
def hmGet (pairs : List (String × String)) (k : String) : Option String :=
  match pairs.reverse.find? (fun p => p.1 = k) with
  | none => none
  | some p => some p.2

/-! ### `str::parse::<i64>` -/

/-- Value of a nonempty list of ASCII digits, `none` on empty input or any
non-digit. -/
def digitsVal : List Char → Option Nat
  | [] => none
  | [c] => if '0' ≤ c ∧ c ≤ '9' then some (c.toNat - '0'.toNat) else none
  | c :: l =>
    if '0' ≤ c ∧ c ≤ '9' then
      match digitsVal l with
      | none => none
      | some n => some ((c.toNat - '0'.toNat) * 10 ^ l.length + n)
    else none

/-- Model of `str::parse::<i64>`: optional sign, one or more ASCII digits, value within
the `i64` range. -/
def rustParseI64 (s : String) : Option Int :=
  match s.data with
  | '+' :: ds =>
    match digitsVal ds with
    | none => none
    | some n => if n ≤ 2 ^ 63 - 1 then some (n : Int) else none
  | '-' :: ds =>
    match digitsVal ds with
    | none => none
    | some n => if n ≤ 2 ^ 63 then some (-(n : Int)) else none
  | ds =>
    match digitsVal ds with
    | none => none
    | some n => if n ≤ 2 ^ 63 - 1 then some (n : Int) else none

/-! ### Signature verification (`verify_webhook_signature`) -/

/-- Two's-complement wrap of an integer into the `i64` range (the literals
are `2^63` and `2^64`): release-mode Rust overflow semantics for `i64`
arithmetic.  (Debug builds panic on overflow instead; the model follows the
release behavior.) -/
def wrapI64 (x : Int) : Int :=
  (x + 9223372036854775808) % 18446744073709551616 - 9223372036854775808

/-- Release-mode `i64::abs`: the ordinary absolute value except that
`i64::MIN.abs()` wraps back to `i64::MIN`. -/
def absI64 (x : Int) : Int :=
  wrapI64 (x.natAbs : Int)

/-- Bytes of the signed payload
`format!("{}.{}", timestamp, String::from_utf8_lossy(payload)).as_bytes()`. -/
def signedPayloadBytes (timestamp : String) (payload : List Nat) : List Nat :=
  strBytes timestamp ++ strBytes "." ++ utf8Lossy payload

/-- Model of `verify_webhook_signature(payload, signature_header,
webhook_secret)`.  `hmacHex key msg` abstracts
`hex::encode(HmacSha256(key).chain_update(msg).finalize())`; `now` abstracts
`Utc::now().timestamp()`.  The freshness check `(now - ts).abs() > 300` is
`i64` arithmetic: the subtraction and the absolute value wrap on overflow in
release builds (`wrapI64` / `absI64`). -/
def verify_webhook_signature (hmacHex : List Nat → List Nat → String) (now : Int)
    (payload : List Nat) (signature_header : String) (webhook_secret : String) :
    Except String Unit :=
  let parts := parseHeaderParts signature_header
  match hmGet parts "t" with
  | none => .error "Missing timestamp"
  | some timestamp =>
    match hmGet parts "v1" with
    | none => .error "Missing signature"
    | some expected_sig =>
      match rustParseI64 timestamp with
      | none => .error "Invalid timestamp"
      | some ts =>
        if absI64 (wrapI64 (now - ts)) > 300 then .error "Webhook timestamp too old"
        else
          let computed_sig :=
            hmacHex (strBytes webhook_secret) (signedPayloadBytes timestamp payload)
          if computed_sig ≠ expected_sig then .error "Invalid webhook signature"
          else .ok ()

/-! ### Lemmas: `utf8Lossy` is the identity on valid UTF-8 -/

theorem utf8Lossy_cons1 (b : Nat) (l : List Nat) (h : b ≤ 0x7F) :
    utf8Lossy (b :: l) = b :: utf8Lossy l := by
  rw [utf8Lossy.eq_def]
  simp only []
  rw [if_pos h]

theorem utf8Lossy_cons2 (b c1 : Nat) (l : List Nat)
    (hb : 0xC2 ≤ b ∧ b ≤ 0xDF) (h1 : 0x80 ≤ c1 ∧ c1 ≤ 0xBF) :
    utf8Lossy (b :: c1 :: l) = b :: c1 :: utf8Lossy l := by
  rw [utf8Lossy.eq_def]
  simp only []
  rw [if_neg (by omega), if_pos hb, if_pos h1]

theorem utf8Lossy_cons3 (b c1 c2 : Nat) (l : List Nat)
    (hb : 0xE0 ≤ b ∧ b ≤ 0xEF)
    (h1 : (b = 0xE0 ∧ 0xA0 ≤ c1 ∧ c1 ≤ 0xBF) ∨
          (b = 0xED ∧ 0x80 ≤ c1 ∧ c1 ≤ 0x9F) ∨
          (b ≠ 0xE0 ∧ b ≠ 0xED ∧ 0x80 ≤ c1 ∧ c1 ≤ 0xBF))
    (h2 : 0x80 ≤ c2 ∧ c2 ≤ 0xBF) :
    utf8Lossy (b :: c1 :: c2 :: l) = b :: c1 :: c2 :: utf8Lossy l := by
  rw [utf8Lossy.eq_def]
  simp only []
  rw [if_neg (by omega), if_neg (by omega), if_pos hb, if_pos h1, if_pos h2]

theorem utf8Lossy_cons4 (b c1 c2 c3 : Nat) (l : List Nat)
    (hb : 0xF0 ≤ b ∧ b ≤ 0xF4)
    (h1 : (b = 0xF0 ∧ 0x90 ≤ c1 ∧ c1 ≤ 0xBF) ∨
          (b = 0xF4 ∧ 0x80 ≤ c1 ∧ c1 ≤ 0x8F) ∨
          ((b = 0xF1 ∨ b = 0xF2 ∨ b = 0xF3) ∧ 0x80 ≤ c1 ∧ c1 ≤ 0xBF))
    (h2 : 0x80 ≤ c2 ∧ c2 ≤ 0xBF) (h3 : 0x80 ≤ c3 ∧ c3 ≤ 0xBF) :
    utf8Lossy (b :: c1 :: c2 :: c3 :: l) = b :: c1 :: c2 :: c3 :: utf8Lossy l := by
  rw [utf8Lossy.eq_def]
  simp only []
  rw [if_neg (by omega), if_neg (by omega), if_neg (by omega), if_pos hb,
    if_pos h1, if_pos h2, if_pos h3]

/-- On a valid Unicode scalar value, the decoder copies the encoded character
verbatim and continues. -/
theorem utf8Lossy_encodeChar (n : Nat) (h : Nat.isValidChar n) (rest : List Nat) :
    utf8Lossy (utf8EncodeChar n ++ rest) = utf8EncodeChar n ++ utf8Lossy rest := by
  have hlt : n < 0x110000 := by
    rcases h with h | h
    · omega
    · omega
  have hns : n < 0xD800 ∨ 0xDFFF < n := by
    rcases h with h | h
    · exact Or.inl h
    · exact Or.inr h.1
  by_cases h1 : n < 0x80
  · simp only [utf8EncodeChar, if_pos h1, List.cons_append, List.nil_append]
    exact utf8Lossy_cons1 n rest (by omega)
  · by_cases h2 : n < 0x800
    · simp only [utf8EncodeChar, if_neg h1, if_pos h2, List.cons_append, List.nil_append]
      exact utf8Lossy_cons2 _ _ rest (by omega) (by omega)
    · by_cases h3 : n < 0x10000
      · simp only [utf8EncodeChar, if_neg h1, if_neg h2, if_pos h3, List.cons_append,
          List.nil_append]
        refine utf8Lossy_cons3 _ _ _ rest (by omega) ?_ (by omega)
        by_cases he0 : n < 0x1000
        · exact Or.inl (by constructor <;> omega)
        · by_cases hed : 0xD000 ≤ n ∧ n < 0xE000
          · refine Or.inr (Or.inl ⟨by omega, by omega, by omega⟩)
          · refine Or.inr (Or.inr ⟨by omega, by omega, by omega, by omega⟩)
      · simp only [utf8EncodeChar, if_neg h1, if_neg h2, if_neg h3, List.cons_append,
          List.nil_append]
        refine utf8Lossy_cons4 _ _ _ _ rest (by omega) ?_ (by omega) (by omega)
        by_cases hf0 : n < 0x40000
        · exact Or.inl ⟨by omega, by omega, by omega⟩
        · by_cases hf4 : 0x100000 ≤ n
          · exact Or.inr (Or.inl ⟨by omega, by omega, by omega⟩)
          · exact Or.inr (Or.inr ⟨by omega, by omega, by omega⟩)

/-- The decoder `utf8Lossy` is the identity on encoded character lists. -/
theorem utf8Lossy_encodeList (l : List Char) :
    utf8Lossy ((l.map Char.toNat).flatMap utf8EncodeChar)
      = (l.map Char.toNat).flatMap utf8EncodeChar := by
  induction l with
  | nil => rfl
  | cons c cs ih =>
    simp only [List.map_cons, List.flatMap_cons]
    rw [utf8Lossy_encodeChar c.toNat c.valid, ih]

/-- The decoder `utf8Lossy` is the identity on the UTF-8 bytes of any string. -/
theorem utf8Lossy_strBytes (s : String) : utf8Lossy (strBytes s) = strBytes s :=
  utf8Lossy_encodeList s.data

/-- UTF-8 byte extraction is a homomorphism for string append. -/
theorem strBytes_append (a b : String) : strBytes (a ++ b) = strBytes a ++ strBytes b := by
  simp [strBytes, String.data_append]

/-! ### Event and subscription data model -/

/-- Model of `StripeEvent`; `J` abstracts `serde_json::Value` (the shape of
`data.object` is only inspected through the parsing/field-access parameters
of `Env`). -/
structure StripeEventData (J : Type) where
  object : J

structure StripeEvent (J : Type) where
  id : String
  event_type : String
  created : Int
  data : StripeEventData J
  livemode : Bool

/-- Model of `CheckoutSession`; `metadata : HashMap<String, String>` is modelled as a
lookup function. -/
structure CheckoutSession where
  id : String
  customer : Option String
  customer_email : Option String
  subscription : Option String
  amount_total : Option Int
  currency : Option String
  status : String
  metadata : Option (String → Option String)

inductive EventResult where
  | Success (user_id : Nat) (plan : String)
  | Failed (error : String)
  | Duplicate
deriving DecidableEq

structure ProcessedEvent where
  event_id : String
  processed_at : Int
  result : EventResult

inductive SubscriptionPlan where
  | Free
  | Pro (monthly : Bool)
  | Enterprise (monthly : Bool)
deriving DecidableEq

inductive SubscriptionStatus where
  | Active
  | Trialing
  | PastDue
  | Canceled
  | Unpaid
deriving DecidableEq

structure UserSubscription where
  user_id : Nat
  email : String
  stripe_customer_id : Option String
  stripe_subscription_id : Option String
  plan : SubscriptionPlan
  status : SubscriptionStatus
  activated_at : Int
  current_period_end : Option Int

/-! ### Idempotency store (in-process fallback: `processed_events_fallback`)

The embedded state is the fallback `HashMap<String, ProcessedEvent>`, the
store used when no Redis client is configured (`redis_url = None`). -/

def LedgerMap : Type := String → Option ProcessedEvent

/-- Model of `IdempotencyStore::is_processed` on the fallback map:
`store.contains_key(event_id)`. -/
def is_processed (store : LedgerMap) (event_id : String) : Bool :=
  (store event_id).isSome

/-- Model of `IdempotencyStore::mark_processed` on the fallback map: insert a
`ProcessedEvent` record under `event_id` (`now` abstracts `Utc::now()`). -/
def mark_processed (store : LedgerMap) (event_id : String) (result : EventResult)
    (now : Int) : LedgerMap :=
  fun k =>
    if k = event_id then some ⟨event_id, now, result⟩ else store k

/-! ### Subscription manager -/

def SubsMap : Type := String → Option UserSubscription

/-- Model of `SubscriptionManager::activate_subscription`; `uuid` abstracts
`Uuid::new_v4()`, `now` abstracts `Utc::now()`.  Returns the created record
and the updated map (`store.insert(email, subscription)`). -/
def activate_subscription (subs : SubsMap) (email : String)
    (stripe_customer_id stripe_subscription_id : Option String)
    (plan_name : String) (uuid : Nat) (now : Int) : UserSubscription × SubsMap :=
  let plan :=
    match plan_name with
    | "pro_monthly" => SubscriptionPlan.Pro true
    | "pro_annual" => SubscriptionPlan.Pro false
    | "enterprise_monthly" => SubscriptionPlan.Enterprise true
    | "enterprise_annual" => SubscriptionPlan.Enterprise false
    | _ => SubscriptionPlan.Free
  let subscription : UserSubscription :=
    { user_id := uuid
      email := email
      stripe_customer_id := stripe_customer_id
      stripe_subscription_id := stripe_subscription_id
      plan := plan
      status := .Active
      activated_at := now
      current_period_end := none }
  (subscription, fun k => if k = email then some subscription else subs k)

/-- Model of `SubscriptionManager::get_by_email`. -/
def get_by_email (subs : SubsMap) (email : String) : Option UserSubscription :=
  subs email

/-- Model of `SubscriptionManager::cancel_subscription`: set `status` to `Canceled`
when the key exists (other fields and keys untouched), report whether a
record was found. -/
def cancel_subscription (subs : SubsMap) (email : String) : Bool × SubsMap :=
  match subs email with
  | some sub =>
    (true, fun k => if k = email then some { sub with status := .Canceled } else subs k)
  | none => (false, subs)

/-! ### Webhook dispatcher (`stripe_webhook_handler`)

The mutable runtime context `StripeWebhookState` is the pair of the fallback
ledger map and the subscription map; config, clock, fresh UUIDs and the
external serde/crypto library calls are collected in `Env`. -/

structure SystemState where
  ledger : LedgerMap
  subs : SubsMap

/-- External collaborators and ambient inputs of one request:
* `hmacHex` — the HMAC-SHA256/hex pipeline;
* `now` — `Utc::now()`;
* `uuidResult`, `uuidActivate` — the two `Uuid::new_v4()` draws (dispatcher
  outcome record, activated subscription);
* `webhookSecret` — `state.config.webhook_secret`;
* `parseEvent` — `serde_json::from_str::<StripeEvent>`;
* `parseSession` — `serde_json::from_value::<CheckoutSession>` (error
  rendered as a message string);
* `getStr` / `getI64` — `Value::get(k)` composed with `as_str` / `as_i64`. -/
structure Env (J : Type) where
  hmacHex : List Nat → List Nat → String
  now : Int
  uuidResult : Nat
  uuidActivate : Nat
  webhookSecret : String
  parseEvent : String → Option (StripeEvent J)
  parseSession : J → Except String CheckoutSession
  getStr : J → String → Option String
  getI64 : J → String → Option Int

/-- Model of `handle_checkout_completed`: parse the session object, default a missing
`customer_email` to `""` and a missing `"plan"` metadata entry to
`"pro_monthly"`, then activate the subscription.  (The audit-log call is an
out-of-scope collaborator.) -/
def handle_checkout_completed {J : Type} (env : Env J) (st : SystemState)
    (event : StripeEvent J) : Except String Unit × SystemState :=
  match env.parseSession event.data.object with
  | .error e => (.error ("Failed to parse session: " ++ e), st)
  | .ok session =>
    let email := session.customer_email.getD ""
    let plan := ((session.metadata.bind (fun m => m "plan")).getD "pro_monthly")
    let subs' :=
      (activate_subscription st.subs email session.customer session.subscription
        plan env.uuidActivate env.now).2
    (.ok (), { st with subs := subs' })

/-- Model of `handle_invoice_paid`: reads `customer_email` / `amount_paid` only to log
(audit sink is out of scope); no state change, always `Ok`. -/
def handle_invoice_paid {J : Type} (_env : Env J) (st : SystemState)
    (_event : StripeEvent J) : Except String Unit × SystemState :=
  (.ok (), st)

/-- Model of `handle_payment_failed`: logs only; no state change, always `Ok`. -/
def handle_payment_failed {J : Type} (_env : Env J) (st : SystemState)
    (_event : StripeEvent J) : Except String Unit × SystemState :=
  (.ok (), st)

/-- Model of `handle_subscription_deleted`: cancel the subscription when the object
carries a `customer_email` string; always `Ok`. -/
def handle_subscription_deleted {J : Type} (env : Env J) (st : SystemState)
    (event : StripeEvent J) : Except String Unit × SystemState :=
  match env.getStr event.data.object "customer_email" with
  | some email => (.ok (), { st with subs := (cancel_subscription st.subs email).2 })
  | none => (.ok (), st)

/-- The `match event.event_type.as_str()` dispatch of the handler stage. -/
def route_event {J : Type} (env : Env J) (st : SystemState) (event : StripeEvent J) :
    Except String Unit × SystemState :=
  if event.event_type = "checkout.session.completed" then
    handle_checkout_completed env st event
  else if event.event_type = "invoice.paid" then handle_invoice_paid env st event
  else if event.event_type = "invoice.payment_failed" then
    handle_payment_failed env st event
  else if event.event_type = "customer.subscription.deleted" then
    handle_subscription_deleted env st event
  else (.ok (), st)

/-- HTTP response: status code and body. -/
def Response : Type := Nat × String

/-- Model of `stripe_webhook_handler`: the full pipeline.  `signature` is
`headers.get("stripe-signature")` after `to_str().unwrap_or("")` (a `none`
means the header is absent). -/
def stripe_webhook_handler {J : Type} (env : Env J) (st : SystemState)
    (signature : Option String) (body : String) : Response × SystemState :=
  match signature with
  | none => ((400, "Missing signature"), st)
  | some sig =>
    match verify_webhook_signature env.hmacHex env.now (strBytes body) sig
        env.webhookSecret with
    | .error _ => ((401, "Invalid signature"), st)
    | .ok _ =>
      match env.parseEvent body with
      | none => ((400, "Invalid event"), st)
      | some event =>
        if is_processed st.ledger event.id then ((200, "Already processed"), st)
        else
          let rs := route_event env st event
          let event_result :=
            match rs.1 with
            | .ok _ => EventResult.Success env.uuidResult "processed"
            | .error e => EventResult.Failed e
          let st' : SystemState :=
            { rs.2 with ledger := mark_processed rs.2.ledger event.id event_result env.now }
          match rs.1 with
          | .ok _ => ((200, "Success"), st')
          | .error e => ((500, e), st')

/-! ## Claim theorems -/

/-- C5: for every event id and outcome, `mark_processed(event_id, outcome)`
followed immediately by `is_processed(event_id)` on the same (in-process
fallback) store returns true. -/
theorem C5_mark_then_is_processed (store : LedgerMap) (event_id : String)
    (result : EventResult) (now : Int) :
    is_processed (mark_processed store event_id result now) event_id = true := by
  simp [is_processed, mark_processed]

/-- C6: `activate_subscription` creates or replaces the single record for the
customer key (other keys untouched), maps `"pro_monthly"` to the Pro tier
with `monthly = true`, defaults every unrecognized plan code to `Free`
without error, stores status `Active`, and
`activate("a@x.com", ..., "pro_monthly")` followed by `get("a@x.com")`
returns a subscription with plan `Pro monthly` and status `Active`. -/
theorem C6_activate_subscription (subs : SubsMap) (email : String)
    (cid sid : Option String) (code : String) (uuid : Nat) (now : Int) :
    (activate_subscription subs email cid sid code uuid now).2 email
        = some (activate_subscription subs email cid sid code uuid now).1
    ∧ (∀ k, k ≠ email →
        (activate_subscription subs email cid sid code uuid now).2 k = subs k)
    ∧ (activate_subscription subs email cid sid code uuid now).1.status = .Active
    ∧ (activate_subscription subs email cid sid "pro_monthly" uuid now).1.plan
        = .Pro true
    ∧ (code ∉ ["pro_monthly", "pro_annual", "enterprise_monthly", "enterprise_annual"] →
        (activate_subscription subs email cid sid code uuid now).1.plan = .Free)
    ∧ (∃ r, get_by_email
          ((activate_subscription subs "a@x.com" cid sid "pro_monthly" uuid now).2)
          "a@x.com" = some r
        ∧ r.plan = .Pro true ∧ r.status = .Active) := by
  refine ⟨?_, ?_, rfl, rfl, ?_, ?_⟩
  · simp [activate_subscription]
  · intro k hk
    simp [activate_subscription, hk]
  · intro hcode
    simp only [activate_subscription]
    split
    · simp_all
    · simp_all
    · simp_all
    · simp_all
    · rfl
  · refine ⟨(activate_subscription subs "a@x.com" cid sid "pro_monthly" uuid now).1,
      ?_, rfl, rfl⟩
    simp [activate_subscription, get_by_email]

/-- C7: `cancel_subscription` returns false and leaves the registry unchanged
on an absent key; on a present key it returns true, sets that record's
status to `Canceled` leaving its other fields and all other keys unchanged,
and is idempotent (cancelling twice ends in the same state as once). -/
theorem C7_cancel_subscription (subs : SubsMap) (email : String) :
    (subs email = none → cancel_subscription subs email = (false, subs))
    ∧ (∀ sub, subs email = some sub →
        (cancel_subscription subs email).1 = true
        ∧ (cancel_subscription subs email).2 email
            = some { sub with status := .Canceled }
        ∧ (∀ k, k ≠ email → (cancel_subscription subs email).2 k = subs k))
    ∧ (cancel_subscription (cancel_subscription subs email).2 email).2
        = (cancel_subscription subs email).2 := by
  refine ⟨?_, ?_, ?_⟩
  · intro h
    simp [cancel_subscription, h]
  · intro sub h
    refine ⟨by simp [cancel_subscription, h], by simp [cancel_subscription, h], ?_⟩
    intro k hk
    simp [cancel_subscription, h, hk]
  · cases h : subs email with
    | none => simp [cancel_subscription, h]
    | some sub =>
      simp only [cancel_subscription, h]
      funext k
      by_cases hk : k = email <;> simp [hk]

/-- Sample subscription record used in concrete instantiations. -/
def sampleSub : UserSubscription :=
  { user_id := 7
    email := "e@x.com"
    stripe_customer_id := none
    stripe_subscription_id := none
    plan := .Free
    status := .Active
    activated_at := 0
    current_period_end := none }

/-- A one-record registry used in concrete instantiations. -/
def subs0 : SubsMap := fun k => if k = "e@x.com" then some sampleSub else none

/-- Witness for C6 at a concrete registry, key and plan codes. -/
theorem C6_activate_subscription_witness :
    (activate_subscription (fun _ => none) "a@x.com" none none "bogus" 0 0).2 "a@x.com"
        = some (activate_subscription (fun _ => none) "a@x.com" none none "bogus" 0 0).1
    ∧ (activate_subscription (fun _ => none) "a@x.com" none none "bogus" 0 0).2 "b@x.com"
        = none
    ∧ (activate_subscription (fun _ => none) "a@x.com" none none "bogus" 0 0).1.status
        = .Active
    ∧ (activate_subscription (fun _ => none) "a@x.com" none none "pro_monthly" 0 0).1.plan
        = .Pro true
    ∧ (activate_subscription (fun _ => none) "a@x.com" none none "bogus" 0 0).1.plan
        = .Free
    ∧ (∃ r, get_by_email
          ((activate_subscription (fun _ => none) "a@x.com" none none "pro_monthly" 0 0).2)
          "a@x.com" = some r
        ∧ r.plan = .Pro true ∧ r.status = .Active) := by
  have h := C6_activate_subscription (fun _ => none) "a@x.com" none none "bogus" 0 0
  exact ⟨h.1, (h.2.1 "b@x.com" (by decide)).trans rfl, h.2.2.1, h.2.2.2.1,
    h.2.2.2.2.1 (by decide), h.2.2.2.2.2⟩

/-- Witness for C7 at a concrete one-record registry. -/
theorem C7_cancel_subscription_witness :
    cancel_subscription subs0 "unknown@x.com" = (false, subs0)
    ∧ (cancel_subscription subs0 "e@x.com").1 = true
    ∧ (cancel_subscription subs0 "e@x.com").2 "e@x.com"
        = some { sampleSub with status := .Canceled }
    ∧ (cancel_subscription subs0 "e@x.com").2 "other@x.com" = none
    ∧ (cancel_subscription (cancel_subscription subs0 "e@x.com").2 "e@x.com").2
        = (cancel_subscription subs0 "e@x.com").2 := by
  have h1 := C7_cancel_subscription subs0 "unknown@x.com"
  have h2 := C7_cancel_subscription subs0 "e@x.com"
  have hs : subs0 "e@x.com" = some sampleSub := rfl
  refine ⟨h1.1 rfl, (h2.2.1 sampleSub hs).1, (h2.2.1 sampleSub hs).2.1, ?_, h2.2.2⟩
  exact ((h2.2.1 sampleSub hs).2.2 "other@x.com" (by decide)).trans rfl

/-- On string payloads the signed-payload bytes are exactly the bytes of
`"{timestamp}.{payload}"`. -/
theorem signedPayloadBytes_valid (tstr payload : String) :
    signedPayloadBytes tstr (strBytes payload) = strBytes (tstr ++ "." ++ payload) := by
  simp [signedPayloadBytes, strBytes_append, utf8Lossy_strBytes]

/-- Wrapping is the identity on the `i64` range. -/
theorem wrapI64_eq (d : Int) (hlo : -9223372036854775808 ≤ d)
    (hhi : d < 9223372036854775808) : wrapI64 d = d := by
  unfold wrapI64
  omega

/-- When `d` is strictly inside the `i64` range (so that neither the
subtraction that produced it nor `abs` overflows), the wrapped absolute
value is the mathematical one. -/
theorem absI64_wrapI64_inrange (d : Int) (hlo : -9223372036854775808 < d)
    (hhi : d < 9223372036854775808) : absI64 (wrapI64 d) = (d.natAbs : Int) := by
  rw [wrapI64_eq d (by omega) hhi]
  unfold absI64
  rw [wrapI64_eq _ (by omega) (by omega)]

/-- C1 (amended): for every payload, secret and current time, a signature
header whose timestamp is within 300 seconds of now and whose `v1` equals
the hex HMAC-SHA256 of `"{timestamp}.{payload}"` under the secret verifies;
for such a verifying input, changing any byte of the payload while keeping
the header makes verification fail (given that the MACs of the two distinct
signed payloads differ, i.e. no HMAC collision); and with a correct `v1`
hash, verification fails whenever `|now − timestamp| > 300` *and*
`now − timestamp` is representable as an `i64` (strictly between `±2^63`) —
in particular at exactly 301 seconds.  Outside that range the release-mode
wrapping of the `i64` subtraction/`abs` can pass the freshness gate (see the
counterexample).  `hmacHex` abstracts the HMAC-SHA256/hex pipeline. -/
theorem C1_verify_signature (hmacHex : List Nat → List Nat → String) (now ts : Int)
    (payload tstr sig secret header : String)
    (ht : hmGet (parseHeaderParts header) "t" = some tstr)
    (hv : hmGet (parseHeaderParts header) "v1" = some sig)
    (hts : rustParseI64 tstr = some ts) :
    ((now - ts).natAbs ≤ 300 →
      sig = hmacHex (strBytes secret) (strBytes (tstr ++ "." ++ payload)) →
      verify_webhook_signature hmacHex now (strBytes payload) header secret = .ok ())
    ∧ ((now - ts).natAbs ≤ 300 →
      sig = hmacHex (strBytes secret) (strBytes (tstr ++ "." ++ payload)) →
      ∀ i b, i < (strBytes payload).length → b ≠ (strBytes payload).getD i 0 →
        hmacHex (strBytes secret)
            (signedPayloadBytes tstr ((strBytes payload).set i b))
          ≠ hmacHex (strBytes secret) (strBytes (tstr ++ "." ++ payload)) →
        verify_webhook_signature hmacHex now ((strBytes payload).set i b) header secret
          = .error "Invalid webhook signature")
    ∧ (-9223372036854775808 < now - ts →
      now - ts < 9223372036854775808 →
      (now - ts).natAbs > 300 →
      sig = hmacHex (strBytes secret) (strBytes (tstr ++ "." ++ payload)) →
      verify_webhook_signature hmacHex now (strBytes payload) header secret
        = .error "Webhook timestamp too old") := by
  refine ⟨?_, ?_, ?_⟩
  · intro hfresh hsig
    simp only [verify_webhook_signature, ht, hv, hts]
    rw [if_neg (by rw [absI64_wrapI64_inrange (now - ts) (by omega) (by omega)]; omega),
      signedPayloadBytes_valid, ← hsig]
    simp
  · intro hfresh hsig i b _ _ hneq
    simp only [verify_webhook_signature, ht, hv, hts]
    rw [if_neg (by rw [absI64_wrapI64_inrange (now - ts) (by omega) (by omega)]; omega)]
    rw [if_pos (by rw [hsig]; exact hneq)]
  · intro hlo hhi hstale _
    simp only [verify_webhook_signature, ht, hv, hts]
    rw [if_pos (by rw [absI64_wrapI64_inrange (now - ts) hlo hhi]; omega)]

/-- An injective stand-in for the abstract HMAC/hex pipeline, used to
instantiate theorems at concrete inputs. -/
def dummyHmacHex : List Nat → List Nat → String :=
  fun _ m => String.mk (m.map Char.ofNat)

/-- C1 counterexample to the unamended freshness conjunct: with `now = 0`
and the parseable timestamp `t = -9223372036854775808` (`i64::MIN`, so
`now − ts = 2^63`, far more than 300 seconds away), a header carrying the
correct `v1` MAC still verifies: the release-mode `i64` computation
`(now - ts).abs()` wraps to `i64::MIN`, which is not `> 300`, so the program
passes the freshness gate (a debug build would panic instead). -/
theorem C1_freshness_wrap_counterexample :
    hmGet (parseHeaderParts "t=-9223372036854775808,v1=-9223372036854775808.p") "t"
        = some "-9223372036854775808"
    ∧ rustParseI64 "-9223372036854775808" = some (-9223372036854775808)
    ∧ hmGet (parseHeaderParts "t=-9223372036854775808,v1=-9223372036854775808.p") "v1"
        = some (dummyHmacHex (strBytes "s")
            (strBytes ("-9223372036854775808" ++ "." ++ "p")))
    ∧ ((0 : Int) - (-9223372036854775808)).natAbs > 300
    ∧ verify_webhook_signature dummyHmacHex 0 (strBytes "p")
        "t=-9223372036854775808,v1=-9223372036854775808.p" "s" = .ok () :=
  ⟨rfl, rfl, rfl, by decide, rfl⟩

/-- Witness for C1 at a concrete header, payload and secret. -/
theorem C1_verify_signature_witness :
    verify_webhook_signature dummyHmacHex 100 (strBytes "p") "t=100,v1=100.p" "s"
        = .ok ()
    ∧ verify_webhook_signature dummyHmacHex 100 ((strBytes "p").set 0 113)
        "t=100,v1=100.p" "s" = .error "Invalid webhook signature"
    ∧ verify_webhook_signature dummyHmacHex 401 (strBytes "p") "t=100,v1=100.p" "s"
        = .error "Webhook timestamp too old" := by
  have h1 := C1_verify_signature dummyHmacHex 100 100 "p" "100" "100.p" "s"
    "t=100,v1=100.p" (by decide) (by decide) (by decide)
  have h2 := C1_verify_signature dummyHmacHex 401 100 "p" "100" "100.p" "s"
    "t=100,v1=100.p" (by decide) (by decide) (by decide)
  exact ⟨h1.1 (by decide) (by decide),
    h1.2.1 (by decide) (by decide) 0 113 (by decide) (by decide) (by decide),
    h2.2.2 (by decide) (by decide) (by decide) (by decide)⟩

/-- C9 counterexample: for the one-byte payload `0xFF` (not valid UTF-8) the
bytes fed to the HMAC after the `"{timestamp}."` prefix are the U+FFFD
replacement bytes, not the raw payload byte. -/
theorem C9_raw_bytes_counterexample :
    signedPayloadBytes "1" [0xFF] ≠ strBytes "1" ++ strBytes "." ++ [0xFF] := by
  decide

/-- C9 (amended): the HMAC input is `"{timestamp}." ++ payload` exactly when
the payload is valid UTF-8 (here: the UTF-8 bytes of a string); invalid
sequences are replaced by U+FFFD by `String::from_utf8_lossy` before
hashing. -/
theorem C9_signed_payload_bytes (tstr payload : String) :
    signedPayloadBytes tstr (strBytes payload)
      = strBytes tstr ++ strBytes "." ++ strBytes payload := by
  simp [signedPayloadBytes, utf8Lossy_strBytes]

/-! ### Dispatcher lemmas -/

/-- No event handler writes to the idempotency ledger. -/
theorem route_event_ledger {J : Type} (env : Env J) (st : SystemState)
    (ev : StripeEvent J) : (route_event env st ev).2.ledger = st.ledger := by
  simp only [route_event, handle_checkout_completed, handle_invoice_paid,
    handle_payment_failed, handle_subscription_deleted]
  split_ifs
  · cases env.parseSession ev.data.object <;> rfl
  · rfl
  · rfl
  · cases env.getStr ev.data.object "customer_email" <;> rfl
  · rfl

/-- C4: a request with a missing signature header gets HTTP 400, a failed
signature verification gets HTTP 401, and an unparsable body gets HTTP 400;
in each case no handler runs, no ledger entry is written and the
subscription registry is untouched (the state is returned unchanged). -/
theorem C4_rejection_paths {J : Type} (env : Env J) (st : SystemState) (body : String) :
    stripe_webhook_handler env st none body = ((400, "Missing signature"), st)
    ∧ (∀ sig e,
        verify_webhook_signature env.hmacHex env.now (strBytes body) sig
            env.webhookSecret = .error e →
        stripe_webhook_handler env st (some sig) body = ((401, "Invalid signature"), st))
    ∧ (∀ sig,
        verify_webhook_signature env.hmacHex env.now (strBytes body) sig
            env.webhookSecret = .ok () →
        env.parseEvent body = none →
        stripe_webhook_handler env st (some sig) body = ((400, "Invalid event"), st)) := by
  refine ⟨rfl, ?_, ?_⟩
  · intro sig e hv
    simp [stripe_webhook_handler, hv]
  · intro sig hv hp
    simp [stripe_webhook_handler, hv, hp]

/-- C2: a verified event whose id is already in the ledger yields HTTP 200
with an already-processed response and leaves the whole state unchanged (no
handler, no registry mutation, no ledger write); consequently delivering the
same verified event id twice yields a second HTTP 200 marked
already-processed with no further state change — exactly one mutation, from
the first delivery. -/
theorem C2_duplicate_delivery {J : Type} (env : Env J) (st : SystemState)
    (sig body : String) (ev : StripeEvent J)
    (hverify : verify_webhook_signature env.hmacHex env.now (strBytes body) sig
        env.webhookSecret = .ok ())
    (hparse : env.parseEvent body = some ev) :
    (is_processed st.ledger ev.id = true →
      stripe_webhook_handler env st (some sig) body = ((200, "Already processed"), st))
    ∧ (is_processed st.ledger ev.id = false →
      ∀ r1 st1, stripe_webhook_handler env st (some sig) body = (r1, st1) →
        r1.1 = 200 →
        stripe_webhook_handler env st1 (some sig) body
          = ((200, "Already processed"), st1)) := by
  constructor
  · intro hdup
    simp [stripe_webhook_handler, hverify, hparse, hdup]
  · intro hnew r1 st1 hrun _
    simp only [stripe_webhook_handler, hverify, hparse, hnew] at hrun ⊢
    simp only [Bool.false_eq_true, if_false] at hrun
    cases hres : (route_event env st ev).1 with
    | ok u =>
      rw [hres] at hrun
      simp only [Prod.mk.injEq] at hrun
      rw [← hrun.2]
      simp [is_processed, mark_processed]
    | error e =>
      rw [hres] at hrun
      simp only [Prod.mk.injEq] at hrun
      rw [← hrun.2]
      simp [is_processed, mark_processed]

/-- C3: a verified, non-duplicate event has `mark_processed` called exactly
once after the handler stage, on the pre-handler ledger (the handlers never
touch the ledger), regardless of handler outcome: success is recorded as
`Success` with HTTP 200, a handler error as `Failed` with HTTP 500 carrying
the error description. -/
theorem C3_outcome_recorded {J : Type} (env : Env J) (st : SystemState)
    (sig body : String) (ev : StripeEvent J)
    (hverify : verify_webhook_signature env.hmacHex env.now (strBytes body) sig
        env.webhookSecret = .ok ())
    (hparse : env.parseEvent body = some ev)
    (hnew : is_processed st.ledger ev.id = false) :
    (route_event env st ev).2.ledger = st.ledger
    ∧ ((route_event env st ev).1 = .ok () →
        stripe_webhook_handler env st (some sig) body
          = ((200, "Success"),
            { (route_event env st ev).2 with
              ledger := mark_processed st.ledger ev.id
                (.Success env.uuidResult "processed") env.now }))
    ∧ (∀ e, (route_event env st ev).1 = .error e →
        stripe_webhook_handler env st (some sig) body
          = ((500, e),
            { (route_event env st ev).2 with
              ledger := mark_processed st.ledger ev.id (.Failed e) env.now })) := by
  refine ⟨route_event_ledger env st ev, ?_, ?_⟩
  · intro hok
    simp only [stripe_webhook_handler, hverify, hparse, hnew]
    simp only [Bool.false_eq_true, if_false, hok, route_event_ledger env st ev]
  · intro e herr
    simp only [stripe_webhook_handler, hverify, hparse, hnew]
    simp only [Bool.false_eq_true, if_false, herr, route_event_ledger env st ev]

/-- C8: a verified, non-duplicate event whose type is outside the recognized
set routes to a no-op handler that succeeds: HTTP 200, the subscription
registry unchanged, and a ledger entry still written. -/
theorem C8_unrecognized_type {J : Type} (env : Env J) (st : SystemState)
    (sig body : String) (ev : StripeEvent J)
    (hverify : verify_webhook_signature env.hmacHex env.now (strBytes body) sig
        env.webhookSecret = .ok ())
    (hparse : env.parseEvent body = some ev)
    (hnew : is_processed st.ledger ev.id = false)
    (htype : ev.event_type ∉ ["checkout.session.completed", "invoice.paid",
        "invoice.payment_failed", "customer.subscription.deleted"]) :
    stripe_webhook_handler env st (some sig) body
      = ((200, "Success"),
        { st with
          ledger := mark_processed st.ledger ev.id
            (.Success env.uuidResult "processed") env.now }) := by
  have hroute : route_event env st ev = (.ok (), st) := by
    simp only [List.mem_cons, List.mem_singleton] at htype
    push_neg at htype
    simp [route_event, htype.1, htype.2.1, htype.2.2.1, htype.2.2.2.1]
  simp only [stripe_webhook_handler, hverify, hparse, hnew]
  simp only [Bool.false_eq_true, if_false, hroute]

/-- C10: a verified, non-duplicate `checkout.session.completed` event whose
session object parses succeeds even with `customer_email` and the `"plan"`
metadata entry absent: the response is HTTP 200 and a subscription is
activated under the empty-string customer key with the `"pro_monthly"`
default plan (Pro, monthly), not Free. -/
theorem C10_checkout_defaults {J : Type} (env : Env J) (st : SystemState)
    (sig body : String) (ev : StripeEvent J) (session : CheckoutSession)
    (hverify : verify_webhook_signature env.hmacHex env.now (strBytes body) sig
        env.webhookSecret = .ok ())
    (hparse : env.parseEvent body = some ev)
    (hnew : is_processed st.ledger ev.id = false)
    (htype : ev.event_type = "checkout.session.completed")
    (hsession : env.parseSession ev.data.object = .ok session)
    (hemail : session.customer_email = none)
    (hplan : session.metadata.bind (fun m => m "plan") = none) :
    (stripe_webhook_handler env st (some sig) body).1 = (200, "Success")
    ∧ (stripe_webhook_handler env st (some sig) body).2.subs ""
        = some { user_id := env.uuidActivate
                 email := ""
                 stripe_customer_id := session.customer
                 stripe_subscription_id := session.subscription
                 plan := .Pro true
                 status := .Active
                 activated_at := env.now
                 current_period_end := none } := by
  have hroute : route_event env st ev
      = (.ok (), { st with subs :=
          (activate_subscription st.subs "" session.customer session.subscription
            "pro_monthly" env.uuidActivate env.now).2 }) := by
    simp [route_event, htype, handle_checkout_completed, hsession, hemail, hplan]
  constructor
  · simp only [stripe_webhook_handler, hverify, hparse, hnew]
    simp only [Bool.false_eq_true, if_false, hroute]
  · simp only [stripe_webhook_handler, hverify, hparse, hnew]
    simp only [Bool.false_eq_true, if_false, hroute]
    simp [activate_subscription]

/-! ### Concrete fixtures for witnesses -/

/-- A concrete `checkout.session.completed` event. -/
def evCheckout : StripeEvent Unit :=
  { id := "evt_1"
    event_type := "checkout.session.completed"
    created := 0
    data := ⟨()⟩
    livemode := false }

/-- A concrete event of an unrecognized type. -/
def evUnknown : StripeEvent Unit :=
  { id := "evt_2"
    event_type := "product.created"
    created := 0
    data := ⟨()⟩
    livemode := false }

/-- A concrete checkout session with no customer email and no metadata. -/
def sampleSession : CheckoutSession :=
  { id := "cs_1"
    customer := none
    customer_email := none
    subscription := none
    amount_total := none
    currency := none
    status := "complete"
    metadata := none }

/-- A concrete environment: the dummy hash, fixed clock and UUID draws, and a
parser recognizing the two fixture bodies. -/
def env0 : Env Unit :=
  { hmacHex := dummyHmacHex
    now := 100
    uuidResult := 1
    uuidActivate := 2
    webhookSecret := "s"
    parseEvent := fun b =>
      if b = "BODY" then some evCheckout
      else if b = "BODY2" then some evUnknown
      else none
    parseSession := fun _ => .ok sampleSession
    getStr := fun _ _ => none
    getI64 := fun _ _ => none }

/-- Same as `env0` but the session object fails to parse. -/
def env1 : Env Unit :=
  { env0 with parseSession := fun _ => .error "boom" }

/-- The empty system state. -/
def st0 : SystemState := ⟨fun _ => none, fun _ => none⟩

/-- A state whose ledger already records `evt_1`. -/
def stDup : SystemState :=
  ⟨fun k => if k = "evt_1" then some ⟨"evt_1", 0, .Duplicate⟩ else none, fun _ => none⟩

/-- Witness for C4 at concrete requests. -/
theorem C4_rejection_paths_witness :
    stripe_webhook_handler env0 st0 none "BODY" = ((400, "Missing signature"), st0)
    ∧ stripe_webhook_handler env0 st0 (some "bad") "BODY"
        = ((401, "Invalid signature"), st0)
    ∧ stripe_webhook_handler env0 st0 (some "t=100,v1=100.nope") "nope"
        = ((400, "Invalid event"), st0) := by
  have h := C4_rejection_paths env0 st0 "BODY"
  have h2 := C4_rejection_paths env0 st0 "nope"
  exact ⟨h.1, h.2.1 "bad" "Missing timestamp" rfl, h2.2.2 "t=100,v1=100.nope" rfl rfl⟩

/-- Witness for C2: a pre-recorded duplicate, and a concrete double delivery. -/
theorem C2_duplicate_delivery_witness :
    stripe_webhook_handler env0 stDup (some "t=100,v1=100.BODY") "BODY"
      = ((200, "Already processed"), stDup)
    ∧ stripe_webhook_handler env0
        (stripe_webhook_handler env0 st0 (some "t=100,v1=100.BODY") "BODY").2
        (some "t=100,v1=100.BODY") "BODY"
      = ((200, "Already processed"),
        (stripe_webhook_handler env0 st0 (some "t=100,v1=100.BODY") "BODY").2) := by
  have hA := C2_duplicate_delivery env0 stDup "t=100,v1=100.BODY" "BODY" evCheckout
    rfl rfl
  have hB := C2_duplicate_delivery env0 st0 "t=100,v1=100.BODY" "BODY" evCheckout
    rfl rfl
  exact ⟨hA.1 rfl,
    hB.2 rfl (stripe_webhook_handler env0 st0 (some "t=100,v1=100.BODY") "BODY").1
      (stripe_webhook_handler env0 st0 (some "t=100,v1=100.BODY") "BODY").2 rfl rfl⟩

/-- Witness for C3: a succeeding and a failing handler at concrete inputs. -/
theorem C3_outcome_recorded_witness :
    (route_event env0 st0 evCheckout).2.ledger = st0.ledger
    ∧ stripe_webhook_handler env0 st0 (some "t=100,v1=100.BODY") "BODY"
      = ((200, "Success"),
        { (route_event env0 st0 evCheckout).2 with
          ledger := mark_processed st0.ledger evCheckout.id
            (.Success env0.uuidResult "processed") env0.now })
    ∧ stripe_webhook_handler env1 st0 (some "t=100,v1=100.BODY") "BODY"
      = ((500, "Failed to parse session: boom"),
        { (route_event env1 st0 evCheckout).2 with
          ledger := mark_processed st0.ledger evCheckout.id
            (.Failed "Failed to parse session: boom") env1.now }) := by
  have h0 := C3_outcome_recorded env0 st0 "t=100,v1=100.BODY" "BODY" evCheckout
    rfl rfl rfl
  have h1 := C3_outcome_recorded env1 st0 "t=100,v1=100.BODY" "BODY" evCheckout
    rfl rfl rfl
  exact ⟨h0.1, h0.2.1 rfl, h1.2.2 "Failed to parse session: boom" rfl⟩

/-- Witness for C8 at a concrete event of type `product.created`. -/
theorem C8_unrecognized_type_witness :
    stripe_webhook_handler env0 st0 (some "t=100,v1=100.BODY2") "BODY2"
      = ((200, "Success"),
        { st0 with
          ledger := mark_processed st0.ledger evUnknown.id
            (.Success env0.uuidResult "processed") env0.now }) :=
  C8_unrecognized_type env0 st0 "t=100,v1=100.BODY2" "BODY2" evUnknown rfl rfl rfl
    (by decide)

/-- Witness for C10 at a concrete session lacking email and metadata. -/
theorem C10_checkout_defaults_witness :
    (stripe_webhook_handler env0 st0 (some "t=100,v1=100.BODY") "BODY").1
      = (200, "Success")
    ∧ (stripe_webhook_handler env0 st0 (some "t=100,v1=100.BODY") "BODY").2.subs ""
      = some { user_id := env0.uuidActivate
               email := ""
               stripe_customer_id := sampleSession.customer
               stripe_subscription_id := sampleSession.subscription
               plan := .Pro true
               status := .Active
               activated_at := env0.now
               current_period_end := none } :=
  C10_checkout_defaults env0 st0 "t=100,v1=100.BODY" "BODY" evCheckout sampleSession
    rfl rfl rfl rfl rfl rfl rfl

end Stripe
